import Mathlib

/-!
  # Verification of the Magic_Story voice-capture listener

  Shallow embedding of `src/listener.py` (class `Listener`): the background
  capture loop `run` inside `Listener.listen` (lines 74-131), the caller-facing
  queries `speech_waiting` / `recognize` / `is_listening` (lines 136-148), the
  start guard of `listen` (lines 66-73, 133-134), and the model-path resolution
  of `Listener.__init__` (lines 40-50).

  Modelling conventions:

  * Time: `time.monotonic()` readings are rationals.  The several
    `time.monotonic()` calls inside one loop-iteration body (lines 105, 112,
    118) are collapsed to a single per-frame reading `tNow`; the loop-top
    reading of line 88 is a separate per-frame reading `tLoop`.
  * The Vosk decoder is driven by a script: for each audio frame the script
    records the decoder's answer to `AcceptWaveform` (a final segment text when
    it returns True, a partial text when it returns False) and the text a
    `FinalResult()` call would return right after that frame was fed.
    `FinalResult()` flushes the recognizer, so a second `FinalResult()` with no
    intervening audio returns the empty text; the embedding keeps a `pend`
    field for this and clears it on each `FinalResult()` call.
  * Python `str.strip()` is modelled by the executable `pyStrip` (its default
    ASCII whitespace set; the unicode extras never occur here).
  * Device faults: `raise` on a frame models `stream.read` raising; `open_fail`
    models `_open_stream` raising.  The `try`/`finally` of lines 76-131 means
    the stream is closed and `_listening` cleared on every exit.
  * The pure session model describes an undisturbed session: `stop_listening`
    is never called, so `_stop_event` stays clear (lines 87, 123).
-/

namespace MagicStory

/-- Timing configuration of a `Listener` (constructor arguments, lines 26-38
of listener.py): `record_timeout`, `min_utterance_seconds`,
`end_silence_seconds`, all in seconds. -/
structure Config where
  record_timeout : ℚ
  min_utterance_seconds : ℚ
  end_silence_seconds : ℚ
deriving DecidableEq, Repr

/-- Decoder response to one `AcceptWaveform(data)` call (lines 94-102):
`accept txt` models `AcceptWaveform` returning True with `Result()` text field
`txt`; `partialHyp txt` models it returning False with `PartialResult()`
partial field `txt`. -/
inductive DecResp where
  | accept (txt : String)
  | partialHyp (txt : String)
deriving DecidableEq, Repr

/-- One iteration's worth of external input to the capture loop: the
`time.monotonic()` reading at the loop-top timeout check (line 88), whether
`stream.read` raises on this frame (line 91), the decoder's response to this
frame (line 94), the `time.monotonic()` reading used inside the iteration body
(lines 105, 112, 118, collapsed), and the text `FinalResult()` would return
right after this frame has been fed to the recognizer. -/
structure Frame where
  tLoop : ℚ
  raise : Bool
  resp : DecResp
  tNow : ℚ
  pend : String
deriving DecidableEq, Repr

/-- Mutable state of the capture loop: the local variables of `run`
(lines 82-84), the recognizer's pending finalizable text, the number of
`FinalResult()` invocations so far (instrumentation), and the contents of
`self._results_q`. -/
structure RunState where
  last_speech_time : Option ℚ
  utterance_started : Option ℚ
  partial_seen : Bool
  pend : String
  final_calls : ℕ
  queue : List String
deriving DecidableEq, Repr

/-- State at the top of `run` (lines 81-84): no speech seen, fresh recognizer,
fresh empty result queue (line 72). -/
def initRun : RunState :=
  { last_speech_time := none, utterance_started := none, partial_seen := false,
    pend := "", final_calls := 0, queue := [] }

/-- Python `str.isspace` membership for the default `str.strip()` set
(ASCII part: space, tab, newline, carriage return, vertical tab, form feed;
the unicode extras never occur in decoder output here). -/
def py_isspace (c : Char) : Bool :=
  c = ' ' || c = '\t' || c = '\n' || c = '\r' || c = '\x0b' || c = '\x0c'

/-- Python `str.strip()` with the default whitespace set: drop leading and
trailing whitespace characters. -/
def pyStrip (s : String) : String :=
  ⟨((s.data.dropWhile py_isspace).reverse.dropWhile py_isspace).reverse⟩

/-- Python truthiness of the `utterance_started` variable at line 118: `None`
is falsy, and so is the float `0.0`. -/
def pyTruthyQ : Option ℚ → Bool
  | none => false
  | some t => decide (t ≠ 0)

/-- The put condition of lines 116-118 as a function of the finalize-time
reading `now`, the `utterance_started` value `us`, and the stripped
`FinalResult` text `ftext`: `ftext` non-empty, `utterance_started` truthy, and
`now - utterance_started >= min_utterance_seconds`. -/
def silenceGate (cfg : Config) (now : ℚ) (us : Option ℚ) (ftext : String) : Bool :=
  (ftext ≠ "") && (pyTruthyQ us &&
    (match us with
     | some u => decide (cfg.min_utterance_seconds ≤ now - u)
     | none => false))

/-- How one session's loop ended.  `silenceFinal` records (as derived data) the
finalize-time reading, the `utterance_started` value and the stripped
`FinalResult` text of the end-of-silence path (lines 112-120).  `exc` is an
escaped exception (device fault); `starved` is the artificial case of the
input script running out, unreachable for a real blocking stream. -/
inductive ExitKind where
  | timeout
  | accepted (text : String)
  | silenceFinal (now : ℚ) (us : Option ℚ) (ftext : String)
  | exc
  | starved
deriving DecidableEq, Repr

/-- The capture loop of `run` (lines 87-120), with `_stop_event` never set.
Each iteration: loop-top timeout check (line 88), frame read (line 91,
possibly raising), then either the `AcceptWaveform`-True branch (lines 94-99)
or the partial-result branch (lines 100-120).  Feeding a frame updates the
recognizer's pending text to the frame's `pend`; the `FinalResult()` call of
line 114 returns that text and flushes it. -/
def listenLoop (cfg : Config) (t0 : ℚ) : RunState → List Frame → ExitKind × RunState
  | st, [] => (.starved, st)
  | st, f :: rest =>
    if cfg.record_timeout < f.tLoop - t0 then (.timeout, st)
    else if f.raise then (.exc, st)
    else
      match f.resp with
      | .accept txt =>
        if pyStrip txt ≠ "" then
          (.accepted (pyStrip txt),
            { st with pend := f.pend, queue := st.queue ++ [pyStrip txt] })
        else
          listenLoop cfg t0 { st with pend := f.pend } rest
      | .partialHyp ptxt =>
        if pyStrip ptxt ≠ "" then
          listenLoop cfg t0
            { st with pend := f.pend, partial_seen := true,
                      last_speech_time := some f.tNow,
                      utterance_started :=
                        match st.utterance_started with
                        | none => some f.tNow
                        | some u => some u } rest
        else
          if st.partial_seen then
            match st.last_speech_time with
            | some lst =>
              if cfg.end_silence_seconds ≤ f.tNow - lst then
                (.silenceFinal f.tNow st.utterance_started (pyStrip f.pend),
                  { st with pend := "", final_calls := st.final_calls + 1,
                            queue := st.queue ++
                              (if silenceGate cfg f.tNow st.utterance_started (pyStrip f.pend)
                               then [pyStrip f.pend] else []) })
              else listenLoop cfg t0 { st with pend := f.pend } rest
            | none => listenLoop cfg t0 { st with pend := f.pend } rest
          else listenLoop cfg t0 { st with pend := f.pend } rest

/-- Outcome of one full `run` body: final result-queue contents, how the loop
ended, how many times `FinalResult()` ran, and the `finally`-block effects
(stream closed, `_listening` cleared, lines 129-131). -/
structure Outcome where
  queue : List String
  exit : ExitKind
  final_calls : ℕ
  closed : Bool
  listening_after : Bool
deriving DecidableEq, Repr

/-- One full undisturbed `run` body (lines 74-131): the capture loop followed
by the finalize-if-nothing-queued step of lines 122-127, all wrapped in the
`try`/`finally` that closes the stream and clears `_listening`.  An escaped
exception (device fault) skips lines 122-127 and goes straight to `finally`;
`open_fail` models `_open_stream` raising before the loop starts. -/
def runSession (cfg : Config) (t0 : ℚ) (frames : List Frame) (open_fail : Bool) : Outcome :=
  if open_fail then
    { queue := [], exit := .exc, final_calls := 0, closed := true, listening_after := false }
  else
    match listenLoop cfg t0 initRun frames with
    | (.exc, st) =>
      { queue := st.queue, exit := .exc, final_calls := st.final_calls,
        closed := true, listening_after := false }
    | (e, st) =>
      if st.queue.isEmpty then
        { queue := if pyStrip st.pend ≠ "" then [pyStrip st.pend] else [],
          exit := e, final_calls := st.final_calls + 1,
          closed := true, listening_after := false }
      else
        { queue := st.queue, exit := e, final_calls := st.final_calls,
          closed := true, listening_after := false }

/-- What a loop exit contributes to the result queue: line 98 enqueues the
accepted text, the end-of-silence path enqueues the stripped final text when
the gate of lines 116-118 passes, and nothing is enqueued otherwise. -/
def exitPut (cfg : Config) : ExitKind → List String
  | .accepted t => [t]
  | .silenceFinal n us ft => if silenceGate cfg n us ft then [ft] else []
  | _ => []

/-- How many `FinalResult()` calls a loop exit performs: exactly one on the
end-of-silence path (line 114), none otherwise. -/
def exitCalls : ExitKind → ℕ
  | .silenceFinal _ _ _ => 1
  | _ => 0

/-- Listener.speech_waiting (lines 136-137): `not self._results_q.empty()`. -/
def speech_waiting (q : List String) : Bool := !q.isEmpty

/-- The bound `recognize` passes to `Queue.get` (line 143), in seconds. -/
def recognize_wait_seconds : ℚ := 1/2

/-- Listener.recognize (lines 139-145): `Queue.get(timeout=0.5)` removes and
returns the front element when the queue is non-empty; on `queue.Empty` (queue
still empty when the 0.5-second wait expires) the method returns `""`.  The
model evaluates the call at a point where no concurrent put lands during the
wait. -/
def recognize : List String → String × List String
  | [] => ("", [])
  | t :: ts => (t, ts)

/-- Caller-shared state touched by both threads: `self._listening`,
`self._results_q`, and whether the audio stream is open. -/
structure Shared where
  listening : Bool
  queue : List String
  stream_open : Bool
deriving DecidableEq, Repr

/-- One atomic write of the background `run` thread to caller-shared state. -/
inductive TAct where
  | set_listening (b : Bool)
  | open_stream
  | put (t : String)
  | close_stream
deriving DecidableEq, Repr

/-- Effect of one background-thread action on caller-shared state. -/
def applyAct (s : Shared) : TAct → Shared
  | .set_listening b => { s with listening := b }
  | .open_stream => { s with stream_open := true }
  | .put t => { s with queue := s.queue ++ [t] }
  | .close_stream => { s with stream_open := false }

/-- The background `run` thread's writes to caller-shared state, in program
order: `self._listening = True` (line 75), stream open (line 77), the result
puts of lines 98/119/127 (the session's queue contents, in order), then the
`finally` block: stream close (line 130) and `self._listening = False`
(line 131). -/
def runActions (cfg : Config) (t0 : ℚ) (frames : List Frame) : List TAct :=
  [.set_listening true, .open_stream] ++
    ((runSession cfg t0 frames false).queue.map TAct.put) ++
    [.close_stream, .set_listening false]

/-- Every caller-observable snapshot of shared state along the background
thread's execution, starting from the state `listen` leaves behind
(not listening, queue cleared, stream closed). -/
def threadTrace (cfg : Config) (t0 : ℚ) (frames : List Frame) : List Shared :=
  List.scanl applyAct
    { listening := false, queue := [], stream_open := false }
    (runActions cfg t0 frames)

/-- Controller-level state for the start guard: `self._listening`,
`self._results_q`, `self._stop_event`, plus (instrumentation) how many
background `run` threads have been launched (line 134). -/
structure CtlState where
  listening : Bool
  queue : List String
  stop_event : Bool
  spawned : ℕ
deriving DecidableEq, Repr

/-- Listener.listen as executed on the caller's thread (lines 66-73, 133-134):
read the `self._listening` guard; when clear, reset the stop event, install a
fresh empty result queue, and launch a `run` thread.  The launched thread sets
`self._listening = True` only later, when it is first scheduled (line 75),
which is the separate step `run_begins`. -/
def listen_call (s : CtlState) : CtlState :=
  if s.listening then s
  else { s with stop_event := false, queue := [], spawned := s.spawned + 1 }

/-- First statement of the `run` thread (line 75), executed at some point
after `Thread.start()` returns. -/
def run_begins (s : CtlState) : CtlState := { s with listening := true }

/-- Python `x or y` where `x` is an optional string: `None` and the empty
string are falsy, so they fall through to `y`. -/
def py_or_str : Option String → String → String
  | none, y => y
  | some s, y => if s = "" then y else s

/-- Name of the default model folder expected next to listener.py (line 44). -/
def default_model_dirname : String := "vosk-model-small-en-us-0.15"

/-- Resolved model path (lines 41-45): the `VOSK_MODEL_PATH` environment
variable, or the `model_path` argument, or the default folder next to
listener.py (`os.path.join` of the script's directory and the default name). -/
def resolve_model_path (env_vosk_model_path : Option String)
    (model_path : Option String) (listener_dir : String) : String :=
  py_or_str env_vosk_model_path
    (py_or_str model_path (listener_dir ++ "/" ++ default_model_dirname))

/-- Result of running `Listener.__init__` up to the model check: either a
constructed instance carrying the resolved model path, or the
`FileNotFoundError` of lines 47-50 (no instance created). -/
inductive InitResult where
  | ok (resolved_model_path : String)
  | file_not_found (msg : String)
deriving DecidableEq, Repr

/-- The model-path resolution and existence check of `Listener.__init__`
(lines 40-50), with the filesystem abstracted as the `isdir` predicate
(`os.path.isdir`). -/
def listener_init (isdir : String → Bool) (env_vosk_model_path : Option String)
    (model_path : Option String) (listener_dir : String) : InitResult :=
  let p := resolve_model_path env_vosk_model_path model_path listener_dir
  if isdir p then .ok p
  else .file_not_found ("Vosk model not found at " ++ p)

/-- Concrete configuration used by the witnesses: `record_timeout = 30`,
`min_utterance_seconds = 0.8`, `end_silence_seconds = 1.0` (the constructor
defaults of listener.py). -/
def cfgDefault : Config :=
  { record_timeout := 30, min_utterance_seconds := 4/5, end_silence_seconds := 1 }

/-- Witness session for the end-of-silence path (the spec's own scenario):
partials "hello" at t=1.2 and "hello there" at t=2, then silence — the
silence check at t=3 fires with 3 - 2 >= 1. -/
def framesHello : List Frame :=
  [ { tLoop := 1, raise := false, resp := .partialHyp "hello", tNow := 6/5, pend := "hello" },
    { tLoop := 2, raise := false, resp := .partialHyp "hello there", tNow := 2, pend := "hello there" },
    { tLoop := 3, raise := false, resp := .partialHyp "", tNow := 3, pend := "hello there" } ]

/-- Pure-silence session against `record_timeout = 5`: only empty partials,
and the loop-top check at t=7 exceeds `t0 + 5`. -/
def cfgShortTimeout : Config :=
  { record_timeout := 5, min_utterance_seconds := 4/5, end_silence_seconds := 1 }

/-- Frames of the pure-silence session: no non-empty partial is ever
observed and the decoder never holds any finalizable text. -/
def framesSilence : List Frame :=
  [ { tLoop := 2, raise := false, resp := .partialHyp "", tNow := 2, pend := "" },
    { tLoop := 7, raise := false, resp := .partialHyp "", tNow := 7, pend := "" } ]

/-- Decoder-driven completion after only 0.1 s of speech (well under
`min_utterance_seconds = 0.8`): a partial "hi" at t=1.1, then
`AcceptWaveform` returns True with text "hi there" at t=1.2. -/
def framesFastFinal : List Frame :=
  [ { tLoop := 1, raise := false, resp := .partialHyp "hi", tNow := 11/10, pend := "hi" },
    { tLoop := 6/5, raise := false, resp := .accept "hi there", tNow := 6/5, pend := "" } ]

/-- Session whose decoder accepts "hi" on the first frame; used to exhibit the
shared-state interleaving in which the result is already queued while
`_listening` is still true. -/
def framesAccepted : List Frame :=
  [ { tLoop := 1, raise := false, resp := .accept "hi", tNow := 1, pend := "" } ]

/-- Session whose first frame read raises (device fault). -/
def framesFault : List Frame :=
  [ { tLoop := 1, raise := true, resp := .partialHyp "", tNow := 1, pend := "" } ]

/-- Evaluation lemmas for `pyStrip` on the literal strings used by the
concrete witness sessions. -/
lemma pyStrip_empty : pyStrip "" = "" := rfl

lemma pyStrip_hello : pyStrip "hello" = "hello" := rfl

lemma pyStrip_hello_there : pyStrip "hello there" = "hello there" := rfl

lemma pyStrip_hi : pyStrip "hi" = "hi" := rfl

lemma pyStrip_hi_there : pyStrip "hi there" = "hi there" := rfl

/-- Loop characterization: a run of the capture loop appends to the result
queue exactly what its exit contributes (nothing while still looping — every
put coincides with an exit), performs exactly the exit's `FinalResult()`
calls, leaves the recognizer flushed after an end-of-silence exit, and only
accepts non-empty stripped text. -/
lemma listenLoop_char (cfg : Config) (t0 : ℚ) (frames : List Frame) : ∀ st : RunState,
    (listenLoop cfg t0 st frames).2.queue
        = st.queue ++ exitPut cfg (listenLoop cfg t0 st frames).1
    ∧ (listenLoop cfg t0 st frames).2.final_calls
        = st.final_calls + exitCalls (listenLoop cfg t0 st frames).1
    ∧ (∀ n us ft, (listenLoop cfg t0 st frames).1 = .silenceFinal n us ft →
        (listenLoop cfg t0 st frames).2.pend = "")
    ∧ (∀ t, (listenLoop cfg t0 st frames).1 = .accepted t → t ≠ "") := by
  induction frames with
  | nil => intro st; simp [listenLoop, exitPut, exitCalls]
  | cons f rest ih =>
    intro st
    rcases f with ⟨tL, rz, resp, tN, pd⟩
    by_cases h1 : cfg.record_timeout < tL - t0
    · simp [listenLoop, h1, exitPut, exitCalls]
    · cases rz with
      | true => simp [listenLoop, h1, exitPut, exitCalls]
      | false =>
        cases resp with
        | accept txt =>
          by_cases h3 : pyStrip txt = ""
          · simpa [listenLoop, h1, h3] using ih _
          · simp [listenLoop, h1, h3, exitPut, exitCalls]
        | partialHyp ptxt =>
          by_cases h3 : pyStrip ptxt = ""
          · by_cases h4 : st.partial_seen
            · rcases hls : st.last_speech_time with _ | lst
              · simpa [listenLoop, h1, h3, h4, hls] using ih _
              · by_cases h5 : cfg.end_silence_seconds ≤ tN - lst
                · simp [listenLoop, h1, h3, h4, hls, h5, exitPut, exitCalls]
                · simpa [listenLoop, h1, h3, h4, hls, h5] using ih _
            · simpa [listenLoop, h1, h3, h4] using ih _
          · simpa [listenLoop, h1, h3] using ih _

/-- Invariant: when the loop exits on the end-of-silence path, the
`utterance_started` value it recorded is a `time.monotonic()` reading of some
earlier frame, hence positive whenever all frame readings are positive (true
of the monotonic clock in any real execution). -/
lemma listenLoop_silence_started (cfg : Config) (t0 : ℚ) (frames : List Frame) :
    ∀ st : RunState, (∀ f ∈ frames, 0 < f.tNow) →
      (∀ u, st.utterance_started = some u → 0 < u) →
      (st.partial_seen = true → st.utterance_started ≠ none) →
      ∀ n us ft, (listenLoop cfg t0 st frames).1 = .silenceFinal n us ft →
        ∃ u, us = some u ∧ 0 < u := by
  induction frames with
  | nil => intro st _ _ _ n us ft h; simp [listenLoop] at h
  | cons f rest ih =>
    intro st hpos hinv hseen n us ft h
    have hpos' : ∀ g ∈ rest, 0 < g.tNow :=
      fun g hg => hpos g (List.mem_cons_of_mem _ hg)
    rcases f with ⟨tL, rz, resp, tN, pd⟩
    by_cases h1 : cfg.record_timeout < tL - t0
    · simp [listenLoop, h1] at h
    · cases rz with
      | true => simp [listenLoop, h1] at h
      | false =>
        cases resp with
        | accept txt =>
          by_cases h3 : pyStrip txt = ""
          · simp only [listenLoop, h1, if_false, h3] at h
            refine ih _ hpos' ?_ ?_ n us ft (by simpa using h)
            · exact hinv
            · exact hseen
          · simp [listenLoop, h1, h3] at h
        | partialHyp ptxt =>
          by_cases h3 : pyStrip ptxt = ""
          · by_cases h4 : st.partial_seen
            · rcases hls : st.last_speech_time with _ | lst
              · simp only [listenLoop, h1, h3, h4, hls] at h
                refine ih _ hpos' ?_ ?_ n us ft (by simpa using h)
                · exact hinv
                · intro _; exact hseen h4
              · by_cases h5 : cfg.end_silence_seconds ≤ tN - lst
                · simp [listenLoop, h1, h3, h4, hls, h5] at h
                  obtain ⟨_, hus, _⟩ := h
                  rcases hst : st.utterance_started with _ | u
                  · exact absurd hst (hseen h4)
                  · exact ⟨u, by rw [← hus, hst], hinv u hst⟩
                · simp only [listenLoop, h1, h3, h4, hls, h5] at h
                  refine ih _ hpos' ?_ ?_ n us ft (by simpa using h)
                  · exact hinv
                  · intro _; exact hseen h4
            · simp [listenLoop, h1, h3, h4] at h
              refine ih _ hpos' ?_ ?_ n us ft (by simpa using h)
              · exact hinv
              · intro hx; simp at hx
          · simp [listenLoop, h1, h3] at h
            refine ih _ hpos' ?_ ?_ n us ft (by simpa using h)
            · intro u hu
              rcases hst : st.utterance_started with _ | u0
              · simp only [hst] at hu
                simp at hu
                subst hu
                exact hpos _ (List.mem_cons_self _ _)
              · have := hinv u0 hst
                simp only [hst] at hu
                simp at hu
                subst hu
                exact this
            · intro _
              rcases hst : st.utterance_started with _ | u0 <;> simp [hst]

/-- When the loop does not end in an escaped exception, the finalize step of
lines 122-127 applies: a second `FinalResult()` when nothing is queued,
otherwise the loop's queue is returned as is. -/
lemma runSession_eq (cfg : Config) (t0 : ℚ) (frames : List Frame)
    (e : ExitKind) (st : RunState) (hL : listenLoop cfg t0 initRun frames = (e, st))
    (hne : e ≠ .exc) :
    runSession cfg t0 frames false =
      if st.queue.isEmpty then
        { queue := if pyStrip st.pend ≠ "" then [pyStrip st.pend] else [],
          exit := e, final_calls := st.final_calls + 1,
          closed := true, listening_after := false }
      else
        { queue := st.queue, exit := e, final_calls := st.final_calls,
          closed := true, listening_after := false } := by
  cases e with
  | exc => exact absurd rfl hne
  | timeout => simp [runSession, hL]
  | accepted t => simp [runSession, hL]
  | silenceFinal n us ft => simp [runSession, hL]
  | starved => simp [runSession, hL]

/-- An escaped exception skips lines 122-127: the outcome carries the loop's
queue and `FinalResult()` count unchanged. -/
lemma runSession_exc (cfg : Config) (t0 : ℚ) (frames : List Frame)
    (st : RunState) (hL : listenLoop cfg t0 initRun frames = (.exc, st)) :
    runSession cfg t0 frames false =
      { queue := st.queue, exit := .exc, final_calls := st.final_calls,
        closed := true, listening_after := false } := by
  simp [runSession, hL]

/-- The outcome's exit kind is the loop's exit kind. -/
lemma runSession_exit (cfg : Config) (t0 : ℚ) (frames : List Frame) :
    (runSession cfg t0 frames false).exit = (listenLoop cfg t0 initRun frames).1 := by
  rcases hL : listenLoop cfg t0 initRun frames with ⟨e, st⟩
  by_cases he : e = ExitKind.exc
  · subst he; rw [runSession_exc cfg t0 frames st hL]
  · rw [runSession_eq cfg t0 frames e st hL he]
    split <;> rfl

/-- Every session enqueues at most one result (the loop enqueues only at its
exit, and lines 122-127 enqueue only when nothing is queued yet). -/
lemma runSession_queue_len (cfg : Config) (t0 : ℚ) (frames : List Frame)
    (open_fail : Bool) :
    (runSession cfg t0 frames open_fail).queue.length ≤ 1 := by
  cases open_fail with
  | true => simp [runSession]
  | false =>
    rcases hL : listenLoop cfg t0 initRun frames with ⟨e, st⟩
    have hq := (listenLoop_char cfg t0 frames initRun).1
    rw [hL] at hq
    simp only [initRun] at hq
    by_cases he : e = ExitKind.exc
    · subst he
      rw [runSession_exc cfg t0 frames st hL]
      simp [hq, exitPut]
    · rw [runSession_eq cfg t0 frames e st hL he]
      split
      · split <;> simp
      · simp only [hq]
        cases e with
        | accepted t => simp [exitPut]
        | silenceFinal n us ft => simp [exitPut]; split <;> simp
        | timeout => simp [exitPut]
        | exc => simp [exitPut]
        | starved => simp [exitPut]

/-- C1: on every session finalized via the silence path (an empty partial
while speaking, with `now - last_speech_time >= end_silence_seconds`, lines
109-120), the session's result queue holds exactly the decoder's stripped
finalized text when that text is non-empty and
`now - utterance_started >= min_utterance_seconds`, and is empty otherwise
(Empty); in particular a speech burst shorter than `min_utterance_seconds`
followed by qualifying silence never yields a result.  The post-loop finalize
of lines 122-127 cannot resurrect a rejected blip because the `FinalResult()`
of line 114 flushed the recognizer.  The positivity hypothesis encodes that
`time.monotonic()` readings are positive in any real execution, which the
Python truthiness test of line 118 silently relies on. -/
theorem claim_C1_silence_min_gate (cfg : Config) (t0 : ℚ) (frames : List Frame)
    (hpos : ∀ f ∈ frames, 0 < f.tNow)
    (n : ℚ) (us : Option ℚ) (ft : String)
    (hexit : (runSession cfg t0 frames false).exit = .silenceFinal n us ft) :
    ∃ u, us = some u ∧ 0 < u ∧
      (runSession cfg t0 frames false).queue =
        (if ft ≠ "" ∧ cfg.min_utterance_seconds ≤ n - u then [ft] else []) := by
  rcases hL : listenLoop cfg t0 initRun frames with ⟨e, st⟩
  have hex : e = ExitKind.silenceFinal n us ft := by
    have h := runSession_exit cfg t0 frames
    rw [hexit, hL] at h
    exact h.symm
  subst hex
  obtain ⟨u, hu, hupos⟩ := listenLoop_silence_started cfg t0 frames initRun hpos
    (by intro u h; simp [initRun] at h) (by intro h; simp [initRun] at h) n us ft (by rw [hL])
  obtain ⟨hq, -, hpend, -⟩ := listenLoop_char cfg t0 frames initRun
  rw [hL] at hq hpend
  have hpend' : st.pend = "" := hpend n us ft rfl
  have hq' : st.queue = (if silenceGate cfg n us ft then [ft] else []) := by
    simpa [initRun, exitPut] using hq
  refine ⟨u, hu, hupos, ?_⟩
  rw [runSession_eq cfg t0 frames _ st hL (by simp)]
  by_cases hg : ft ≠ "" ∧ cfg.min_utterance_seconds ≤ n - u
  · have hgT : silenceGate cfg n us ft = true := by
      subst hu
      simp [silenceGate, pyTruthyQ, hg.1, hg.2, ne_of_gt hupos]
    simp [hq', hgT, hg]
  · have hgF : silenceGate cfg n us ft = false := by
      subst hu
      rcases not_and_or.mp hg with hft | hmin
      · simp [silenceGate, not_not.mp hft]
      · simp [silenceGate, pyTruthyQ, hmin]
    simp [hq', hgF, hpend', hg, pyStrip_empty]

/-- Witness for C1: the spec's own scenario — partials "hello" (t=1.2) and
"hello there" (t=2), silence firing at t=3; utterance duration 1.8 s >= 0.8 s,
so the queue holds exactly "hello there". -/
theorem claim_C1_witness :
    (∀ f ∈ framesHello, 0 < f.tNow)
    ∧ (runSession cfgDefault 1 framesHello false).exit
        = ExitKind.silenceFinal 3 (some (6/5)) "hello there"
    ∧ ∃ u, (some (6/5 : ℚ)) = some u ∧ 0 < u ∧
        (runSession cfgDefault 1 framesHello false).queue =
          (if "hello there" ≠ "" ∧ cfgDefault.min_utterance_seconds ≤ 3 - u
           then ["hello there"] else []) := by
  have hpos : ∀ f ∈ framesHello, 0 < f.tNow := by
    intro f hf
    simp only [framesHello, List.mem_cons, List.not_mem_nil, or_false] at hf
    rcases hf with h | h | h <;> subst h <;> norm_num
  have hexit : (runSession cfgDefault 1 framesHello false).exit
      = ExitKind.silenceFinal 3 (some (6/5)) "hello there" := by
    norm_num [runSession, listenLoop, framesHello, cfgDefault, initRun, silenceGate,
      pyTruthyQ, pyStrip_empty, pyStrip_hello, pyStrip_hello_there]
    simp
  exact ⟨hpos, hexit,
    claim_C1_silence_min_gate cfgDefault 1 framesHello hpos 3 (some (6/5)) "hello there" hexit⟩

/-- Counterexample to C2: a session of pure silence (every partial strips to
empty, no finalizable text) whose record timeout elapses.  The claim says the
result is Empty and `FinalResult()` is never invoked; the code does produce an
empty queue, but lines 122-127 invoke `FinalResult()` once — the count is 1,
not 0. -/
theorem claim_C2_counterexample :
    (∀ f ∈ framesSilence, ∀ p, f.resp = DecResp.partialHyp p → pyStrip p = "")
    ∧ (runSession cfgShortTimeout 1 framesSilence false).exit = ExitKind.timeout
    ∧ (runSession cfgShortTimeout 1 framesSilence false).queue = []
    ∧ (runSession cfgShortTimeout 1 framesSilence false).final_calls = 1
    ∧ (runSession cfgShortTimeout 1 framesSilence false).final_calls ≠ 0 := by
  have hrun : runSession cfgShortTimeout 1 framesSilence false =
      { queue := [], exit := ExitKind.timeout, final_calls := 1,
        closed := true, listening_after := false } := by
    norm_num [runSession, listenLoop, framesSilence, cfgShortTimeout, initRun, pyStrip_empty]
  refine ⟨?_, by rw [hrun], by rw [hrun], by rw [hrun], by rw [hrun]; simp⟩
  intro f hf p hp
  simp only [framesSilence, List.mem_cons, List.not_mem_nil, or_false] at hf
  rcases hf with h | h <;> subst h <;>
    simp only [DecResp.partialHyp.injEq] at hp <;> subst hp <;> exact pyStrip_empty

/-- C2 amended: when the record timeout elapses on a session with zero
non-empty partials, the result is Empty exactly when the decoder's
force-finalized text is empty — but `FinalResult()` IS invoked, exactly once,
by the post-loop finalize of lines 122-127 (the claim's "never invoked" fails;
everything else stands). -/
theorem claim_C2_amended (cfg : Config) (t0 : ℚ) (frames : List Frame)
    (hsil : ∀ f ∈ frames, ∀ p, f.resp = DecResp.partialHyp p → pyStrip p = "")
    (hexit : (runSession cfg t0 frames false).exit = ExitKind.timeout) :
    (runSession cfg t0 frames false).final_calls = 1
    ∧ ((runSession cfg t0 frames false).queue = []
        ↔ pyStrip (listenLoop cfg t0 initRun frames).2.pend = "") := by
  rcases hL : listenLoop cfg t0 initRun frames with ⟨e, st⟩
  have hex : e = ExitKind.timeout := by
    have h := runSession_exit cfg t0 frames
    rw [hexit, hL] at h
    exact h.symm
  subst hex
  obtain ⟨hq, hc, -, -⟩ := listenLoop_char cfg t0 frames initRun
  rw [hL] at hq hc
  have hq' : st.queue = [] := by simpa [initRun, exitPut] using hq
  have hc' : st.final_calls = 0 := by simpa [initRun, exitCalls] using hc
  rw [runSession_eq cfg t0 frames _ st hL (by simp)]
  constructor
  · simp [hq', hc']
  · by_cases hp : pyStrip st.pend = "" <;> simp [hq', hp]

/-- Witness for the amended C2 at the concrete pure-silence session. -/
theorem claim_C2_amended_witness :
    (∀ f ∈ framesSilence, ∀ p, f.resp = DecResp.partialHyp p → pyStrip p = "")
    ∧ (runSession cfgShortTimeout 1 framesSilence false).exit = ExitKind.timeout
    ∧ ((runSession cfgShortTimeout 1 framesSilence false).final_calls = 1
        ∧ ((runSession cfgShortTimeout 1 framesSilence false).queue = []
            ↔ pyStrip (listenLoop cfgShortTimeout 1 initRun framesSilence).2.pend = "")) := by
  have hsil : ∀ f ∈ framesSilence, ∀ p, f.resp = DecResp.partialHyp p → pyStrip p = "" := by
    intro f hf p hp
    simp only [framesSilence, List.mem_cons, List.not_mem_nil, or_false] at hf
    rcases hf with h | h <;> subst h <;>
      simp only [DecResp.partialHyp.injEq] at hp <;> subst hp <;> exact pyStrip_empty
  have hexit : (runSession cfgShortTimeout 1 framesSilence false).exit = ExitKind.timeout := by
    norm_num [runSession, listenLoop, framesSilence, cfgShortTimeout, initRun, pyStrip_empty]
  exact ⟨hsil, hexit, claim_C2_amended cfgShortTimeout 1 framesSilence hsil hexit⟩

/-- C3: when the decoder itself signals a complete segment
(`AcceptWaveform` returns True, lines 94-99) with non-empty stripped text, the
session accepts it immediately as its one Success result and stops.  The
statement holds for every configuration — in particular for arbitrarily large
`min_utterance_seconds` — so the minimum-utterance-duration gate is not
applied on this path. -/
theorem claim_C3_decoder_final_fast_path (cfg : Config) (t0 : ℚ) (frames : List Frame)
    (t : String) (hexit : (runSession cfg t0 frames false).exit = ExitKind.accepted t) :
    (runSession cfg t0 frames false).queue = [t] ∧ t ≠ "" := by
  rcases hL : listenLoop cfg t0 initRun frames with ⟨e, st⟩
  have hex : e = ExitKind.accepted t := by
    have h := runSession_exit cfg t0 frames
    rw [hexit, hL] at h
    exact h.symm
  subst hex
  obtain ⟨hq, -, -, hne⟩ := listenLoop_char cfg t0 frames initRun
  rw [hL] at hq hne
  have hq' : st.queue = [t] := by simpa [initRun, exitPut] using hq
  rw [runSession_eq cfg t0 frames _ st hL (by simp)]
  exact ⟨by simp [hq'], hne t rfl⟩

/-- Witness for C3: the decoder accepts "hi there" only 0.1 s after the first
partial — far below `min_utterance_seconds = 0.8` — and the session still
emits it as Success. -/
theorem claim_C3_witness :
    (runSession cfgDefault 1 framesFastFinal false).exit = ExitKind.accepted "hi there"
    ∧ ((runSession cfgDefault 1 framesFastFinal false).queue = ["hi there"]
        ∧ "hi there" ≠ "") := by
  have hexit : (runSession cfgDefault 1 framesFastFinal false).exit
      = ExitKind.accepted "hi there" := by
    norm_num [runSession, listenLoop, framesFastFinal, cfgDefault, initRun,
      pyStrip_hi, pyStrip_hi_there]
    simp
  exact ⟨hexit, claim_C3_decoder_final_fast_path cfgDefault 1 framesFastFinal "hi there" hexit⟩

/-- Counterexample to C4: two `listen()` calls in quick succession, both
executed before the first session's `run` thread has been scheduled (so line
75 has not yet set `self._listening`).  Both calls pass the `if
self._listening: return` guard of lines 68-69 and both launch a thread: two
sessions, not one — the claimed no-op fails exactly in the
quick-succession case it asserts. -/
theorem claim_C4_counterexample :
    (listen_call { listening := false, queue := [], stop_event := false, spawned := 0 }).spawned = 1
    ∧ (listen_call (listen_call
        { listening := false, queue := [], stop_event := false, spawned := 0 })).spawned = 2 := by
  constructor <;> rfl

/-- C4 amended: the start guard is a no-op only once the launched session has
actually begun (its thread has executed line 75, setting `self._listening`):
from then on, a further `listen()` changes nothing — no new thread, no queue
reset.  Before that point the guard is racy and a second call can launch a
second session (see the counterexample). -/
theorem claim_C4_amended (s : CtlState) (h : s.listening = true) :
    listen_call s = s := by
  simp [listen_call, h]

/-- Witness for the amended C4: with the session begun, `listen()` leaves the
controller state untouched. -/
theorem claim_C4_amended_witness :
    ({ listening := true, queue := ["x"], stop_event := false, spawned := 1 } : CtlState).listening = true
    ∧ listen_call { listening := true, queue := ["x"], stop_event := false, spawned := 1 }
        = { listening := true, queue := ["x"], stop_event := false, spawned := 1 } :=
  ⟨rfl, claim_C4_amended
    { listening := true, queue := ["x"], stop_event := false, spawned := 1 } rfl⟩

/-- C5: every session writes at most one result into the queue (so the
single-slot reading holds: a written result is never overwritten — an Empty
outcome is represented by writing nothing), and a `start()` that actually
starts installs a fresh empty queue, clearing the previous session's result
(line 72). -/
theorem claim_C5_single_slot (cfg : Config) (t0 : ℚ) (frames : List Frame)
    (open_fail : Bool) (s : CtlState) (h : s.listening = false) :
    (runSession cfg t0 frames open_fail).queue.length ≤ 1
    ∧ (listen_call s).queue = [] :=
  ⟨runSession_queue_len cfg t0 frames open_fail, by simp [listen_call, h]⟩

/-- Witness for C5 at the concrete "hello there" session and a controller
holding a stale result. -/
theorem claim_C5_witness :
    ({ listening := false, queue := ["stale"], stop_event := false, spawned := 3 } : CtlState).listening = false
    ∧ ((runSession cfgDefault 1 framesHello false).queue.length ≤ 1
        ∧ (listen_call { listening := false, queue := ["stale"], stop_event := false, spawned := 3 }).queue = []) :=
  ⟨rfl, claim_C5_single_slot cfgDefault 1 framesHello false
    { listening := false, queue := ["stale"], stop_event := false, spawned := 3 } rfl⟩

/-- Counterexample to C6: in the session that accepts "hi", the background
thread enqueues the result (line 98) before the `finally` block clears
`self._listening` (line 131).  At the intermediate shared state (index 3 of
the trace) the result is already readable — `speech_waiting` is true — while
`is_listening` still returns true, refuting "it is never the case that a
result is readable while isListening() still returns true". -/
theorem claim_C6_counterexample :
    (threadTrace cfgDefault 1 framesAccepted)[3]? =
      some { listening := true, queue := ["hi"], stream_open := true }
    ∧ ¬(∀ s ∈ threadTrace cfgDefault 1 framesAccepted,
          speech_waiting s.queue = true → s.listening = false) := by
  have hq : (runSession cfgDefault 1 framesAccepted false).queue = ["hi"] := by
    norm_num [runSession, listenLoop, framesAccepted, cfgDefault, initRun, pyStrip_hi]
    simp
  have htr : threadTrace cfgDefault 1 framesAccepted =
      [ { listening := false, queue := [], stream_open := false },
        { listening := true, queue := [], stream_open := false },
        { listening := true, queue := [], stream_open := true },
        { listening := true, queue := ["hi"], stream_open := true },
        { listening := true, queue := ["hi"], stream_open := false },
        { listening := false, queue := ["hi"], stream_open := false } ] := by
    simp [threadTrace, runActions, hq, applyAct]
  rw [htr]
  constructor
  · rfl
  · intro hall
    have := hall { listening := true, queue := ["hi"], stream_open := true }
      (by simp) (by simp [speech_waiting])
    simp at this

/-- C6 amended: a result can be readable while `isListening()` is still true
(the counterexample), but the converse direction of the claim holds: at every
point after the background thread has begun (index at least 1 in the trace of
its shared-state writes), `listening = false` implies the thread has fully
finished — the session's entire result queue is already readable and the
stream is closed.  So `isListening() == false` still implies any result is
readable. -/
theorem claim_C6_amended (cfg : Config) (t0 : ℚ) (frames : List Frame)
    (i : ℕ) (h1 : 1 ≤ i) (s : Shared)
    (hs : (threadTrace cfg t0 frames)[i]? = some s)
    (hnl : s.listening = false) :
    s.queue = (runSession cfg t0 frames false).queue ∧ s.stream_open = false := by
  have hlen := runSession_queue_len cfg t0 frames false
  rcases hq : (runSession cfg t0 frames false).queue with _ | ⟨t, rest⟩
  · simp only [threadTrace, runActions, hq, List.map_nil, List.nil_append,
      List.scanl, applyAct, List.append_nil, List.cons_append] at hs
    rcases i with _ | _ | _ | _ | _ | i
    · omega
    · simp at hs; rw [← hs] at hnl; simp at hnl
    · simp at hs; rw [← hs] at hnl; simp at hnl
    · simp at hs; rw [← hs] at hnl; simp at hnl
    · simp at hs; rw [← hs]; simp [hq]
    · simp at hs
  · rcases rest with _ | ⟨t2, rest⟩
    · simp only [threadTrace, runActions, hq, List.map_cons, List.map_nil,
        List.scanl, applyAct, List.nil_append, List.cons_append, List.append_nil] at hs
      rcases i with _ | _ | _ | _ | _ | _ | i
      · omega
      · simp at hs; rw [← hs] at hnl; simp at hnl
      · simp at hs; rw [← hs] at hnl; simp at hnl
      · simp at hs; rw [← hs] at hnl; simp at hnl
      · simp at hs; rw [← hs] at hnl; simp at hnl
      · simp at hs; rw [← hs]; simp [hq]
      · simp at hs
    · rw [hq] at hlen; simp at hlen

/-- Witness for the amended C6: the final trace state of the "hi" session has
`listening = false`, and its queue is exactly the session's result. -/
theorem claim_C6_amended_witness :
    (1 : ℕ) ≤ 5
    ∧ (threadTrace cfgDefault 1 framesAccepted)[5]? =
        some { listening := false, queue := ["hi"], stream_open := false }
    ∧ (({ listening := false, queue := ["hi"], stream_open := false } : Shared).listening = false)
    ∧ (({ listening := false, queue := ["hi"], stream_open := false } : Shared).queue
          = (runSession cfgDefault 1 framesAccepted false).queue
        ∧ ({ listening := false, queue := ["hi"], stream_open := false } : Shared).stream_open = false) := by
  have hq : (runSession cfgDefault 1 framesAccepted false).queue = ["hi"] := by
    norm_num [runSession, listenLoop, framesAccepted, cfgDefault, initRun, pyStrip_hi]
    simp
  have hs : (threadTrace cfgDefault 1 framesAccepted)[5]? =
      some { listening := false, queue := ["hi"], stream_open := false } := by
    simp [threadTrace, runActions, hq, applyAct]
  exact ⟨by omega, hs, rfl,
    claim_C6_amended cfgDefault 1 framesAccepted 5 (by omega) _ hs rfl⟩

/-- Counterexample to C7: a session whose first frame read raises.  The loop
aborts and the `finally` block closes the device and clears the flag, but the
caller is never given any `Failed(cause)` value: the result channel (which
carries only recognized-text strings — the code has no `Failed` variant at
all) stays empty, indistinguishable from silence, and the exception escapes
the `run` body (exit kind `exc`) instead of being converted into a result.
`run` has no `except` clause — only `finally` — so nothing reports the fault. -/
theorem claim_C7_counterexample :
    runSession cfgDefault 1 framesFault false =
      { queue := [], exit := ExitKind.exc, final_calls := 0,
        closed := true, listening_after := false } := by
  norm_num [runSession, listenLoop, framesFault, cfgDefault, initRun]

/-- C7 amended: an unrecoverable device fault (a raising open or read) aborts
the loop and the `finally` block does run — the device is closed and the
listening flag cleared, and the caller's thread is unaffected (the exception
dies with the daemon thread) — but the fault is NOT reported as a result: the
result queue is left empty, so the caller sees exactly what silence produces. -/
theorem claim_C7_amended (cfg : Config) (t0 : ℚ) (frames : List Frame) (open_fail : Bool)
    (hexc : (runSession cfg t0 frames open_fail).exit = ExitKind.exc) :
    (runSession cfg t0 frames open_fail).queue = []
    ∧ (runSession cfg t0 frames open_fail).closed = true
    ∧ (runSession cfg t0 frames open_fail).listening_after = false := by
  cases open_fail with
  | true => simp [runSession]
  | false =>
    rcases hL : listenLoop cfg t0 initRun frames with ⟨e, st⟩
    have hex : e = ExitKind.exc := by
      have h := runSession_exit cfg t0 frames
      rw [hexc, hL] at h
      exact h.symm
    subst hex
    obtain ⟨hq, -, -, -⟩ := listenLoop_char cfg t0 frames initRun
    rw [hL] at hq
    have hq' : st.queue = [] := by simpa [initRun, exitPut] using hq
    rw [runSession_exc cfg t0 frames st hL]
    simp [hq']

/-- Witness for the amended C7 at the concrete faulting session. -/
theorem claim_C7_amended_witness :
    (runSession cfgDefault 1 framesFault false).exit = ExitKind.exc
    ∧ ((runSession cfgDefault 1 framesFault false).queue = []
        ∧ (runSession cfgDefault 1 framesFault false).closed = true
        ∧ (runSession cfgDefault 1 framesFault false).listening_after = false) := by
  have hexc : (runSession cfgDefault 1 framesFault false).exit = ExitKind.exc := by
    norm_num [runSession, listenLoop, framesFault, cfgDefault, initRun]
  exact ⟨hexc, claim_C7_amended cfgDefault 1 framesFault false hexc⟩

/-- C8: `recognize` is a bounded-wait poll: it returns the queued result when
one is present (the session has finished with a result) and the empty string
when the queue is empty (session still running, or finished without a
result), and the only wait it can incur is the `Queue.get` timeout of 0.5
seconds — within the claim's hundreds-of-milliseconds bound, never more. -/
theorem claim_C8_poll_bounded :
    (∀ t ts, recognize (t :: ts) = (t, ts))
    ∧ recognize ([] : List String) = ("", [])
    ∧ recognize_wait_seconds = 1/2
    ∧ recognize_wait_seconds ≤ 1 :=
  ⟨fun _ _ => rfl, rfl, rfl, by norm_num [recognize_wait_seconds]⟩

/-- C9: `recognize` consumes the result — `Queue.get` removes the element.
Since a session enqueues at most one result, the queue is empty after one
`recognize`, and every subsequent call returns the empty string. -/
theorem claim_C9_result_consumed (cfg : Config) (t0 : ℚ) (frames : List Frame)
    (open_fail : Bool) :
    (recognize (runSession cfg t0 frames open_fail).queue).2 = []
    ∧ recognize ((recognize (runSession cfg t0 frames open_fail).queue).2) = ("", []) := by
  have hlen := runSession_queue_len cfg t0 frames open_fail
  rcases hq : (runSession cfg t0 frames open_fail).queue with _ | ⟨t, _ | ⟨t2, rest⟩⟩
  · simp [recognize]
  · simp [recognize]
  · rw [hq] at hlen
    simp at hlen

/-- C10: when the resolved model path (`VOSK_MODEL_PATH`, or the `model_path`
argument, or the default folder next to listener.py) is not an existing
directory, `Listener.__init__` raises `FileNotFoundError` and no instance is
created. -/
theorem claim_C10_init_missing_model (isdir : String → Bool)
    (env_vosk_model_path model_path : Option String) (listener_dir : String)
    (h : isdir (resolve_model_path env_vosk_model_path model_path listener_dir) = false) :
    listener_init isdir env_vosk_model_path model_path listener_dir
      = InitResult.file_not_found
          ("Vosk model not found at "
            ++ resolve_model_path env_vosk_model_path model_path listener_dir)
    ∧ ∀ p, listener_init isdir env_vosk_model_path model_path listener_dir
        ≠ InitResult.ok p := by
  refine ⟨by simp [listener_init, h], ?_⟩
  intro p
  simp [listener_init, h]

/-- Witness for C10: no directory exists, no env var and no argument — the
default path next to listener.py is checked and construction fails. -/
theorem claim_C10_witness :
    ((fun _ => false : String → Bool) (resolve_model_path none none "/opt/app") = false)
    ∧ (listener_init (fun _ => false) none none "/opt/app"
        = InitResult.file_not_found
            ("Vosk model not found at " ++ resolve_model_path none none "/opt/app")
       ∧ ∀ p, listener_init (fun _ => false) none none "/opt/app" ≠ InitResult.ok p) :=
  ⟨rfl, claim_C10_init_missing_model (fun _ => false) none none "/opt/app" rfl⟩

end MagicStory
